import Mathlib

/-
Verification of the snapshot scheduling, scope/retention and publish engine
of the rapid-gossip-sync-server repository (src/snapshot.rs, src/client.rs).

Machine integers (Rust u64) are embedded as Nat, with an explicit
reduction modulo 2^64 at the one place the source can wrap (the doubling
shift in the scope planner and the multiplication inside the retention
lookup), truncated Nat subtraction for saturating_sub, and min with the
u64 maximum for saturating_mul. Fallible operations (checked arithmetic,
lookups that unwrap in the source) are embedded as Option.
-/

set_option maxRecDepth 8000

namespace RGS

/-- The modulus of u64 arithmetic. -/
def U64LIMIT : Nat := 2 ^ 64

/-- u64 MAX, the unbounded-scope sentinel pushed by the planner
(snapshot.rs line 35). -/
def U64MAX : Nat := 2 ^ 64 - 1

/-- The hard-coded epoch anchor of the symlink count, Jan 1 2022
(snapshot.rs line 157). -/
def epochAnchor : Nat := 1640995200

/-! ## Scope planner (snapshot.rs lines 28-42)

The loop pushes the current scope, and either terminates by pushing the
u64 MAX sentinel once the current scope reaches the configured maximum, or
doubles the current scope (a u64 shift left by one, which discards the
overflowing bit, hence the reduction modulo 2^64) and repeats. The Rust
loop has no fuel: it either returns a vector or runs forever. The
embedding uses fuel and returns none when the fuel runs out. Any nonzero
u64 becomes 0 after at most 64 doublings modulo 2^64, and once the current
scope is 0 with a positive maximum the loop repeats the same state
forever, so with fuel 128 the embedding returns none exactly when the Rust
loop never terminates. -/

def planScopesAux : Nat → Nat → Nat → Option (List Nat)
  | 0, _, _ => none
  | fuel + 1, currentScope, maxScope =>
    if maxScope ≤ currentScope then
      some [currentScope, U64MAX]
    else
      (planScopesAux fuel ((currentScope * 2) % U64LIMIT) maxScope).map
        (fun rest => currentScope :: rest)

/-- The scope list computed by snapshot_gossip from the snapshot interval
and the maximum snapshot scope (snapshot.rs lines 28-42). -/
def planScopes (baseInterval maxScope : Nat) : Option (List Nat) :=
  planScopesAux 128 baseInterval maxScope

/-! ## Slot count (snapshot.rs lines 156-161)

The symlink count is the unchecked u64 expression
(reference_timestamp - 1640995200) / granularity_interval, optionally
clamped to max_symlink_count. The checked variant below records where the
expression panics: on subtraction underflow (debug overflow check) and on
division by zero (both build modes). -/

/-- Checked u64 subtraction: none models the panic on underflow. -/
def checkedSub (a b : Nat) : Option Nat :=
  if b ≤ a then some (a - b) else none

/-- Checked division: none models the panic on division by zero. -/
def checkedDiv (a b : Nat) : Option Nat :=
  if b = 0 then none else some (a / b)

/-- The slot count expression of snapshot.rs line 157 with its panics made
explicit. -/
def symlinkCountChecked (referenceTimestamp granularityInterval : Nat) : Option Nat :=
  (checkedSub referenceTimestamp epochAnchor).bind
    (fun d => checkedDiv d granularityInterval)

/-- The slot count actually used by the symlink loop (snapshot.rs lines
156-161): elapsed intervals since the epoch anchor, clamped to
max_symlink_count when supplied. -/
def symlinkCount (referenceTimestamp granularityInterval : Nat)
    (maxSymlinkCount : Option Nat) : Nat :=
  let n := (referenceTimestamp - epochAnchor) / granularityInterval
  match maxSymlinkCount with
  | none => n
  | some m => min n m

/-! ## Retention resolution (snapshot.rs lines 163-206) -/

/-- The snapshot scope referenced by slot index i (snapshot.rs lines
167-190): slot 0 is forced to the u64 MAX sentinel; a positive slot scans
the scope list ascending for the first scope at least i * granularity (a
plain u64 product, which wraps modulo 2^64) and unwraps the result -
none models the panic when no scope matches. -/
def referencedScope (snapshotScopes : List Nat) (granularityInterval i : Nat) :
    Option Nat :=
  if i = 0 then
    some U64MAX
  else
    snapshotScopes.find? (fun currentScope =>
      decide ((i * granularityInterval) % U64LIMIT ≤ currentScope))

/-- The canonical last-sync timestamp of slot i (snapshot.rs lines
196-201): slot 0 is forced to 0; a positive slot uses
reference_timestamp.saturating_sub(granularity_interval.saturating_mul(i)).
Nat subtraction is already saturating; saturating_mul caps at u64 MAX. -/
def canonicalSyncTimestamp (referenceTimestamp granularityInterval i : Nat) : Nat :=
  if i = 0 then 0
  else referenceTimestamp - min (granularityInterval * i) U64MAX

/-- The snapshot filename of one scope (snapshot.rs line 119). -/
def snapshotFilename (referenceTimestamp scope cutoff : Nat) : String :=
  "snapshot__calculated-at:" ++ Nat.repr referenceTimestamp ++
    "__range:" ++ Nat.repr scope ++
    "-scope__previous-sync:" ++ Nat.repr cutoff ++ ".lngossip"

/-- The filename map built by the per-scope loop (snapshot.rs lines
103-123): each scope is mapped to the filename derived from the reference
timestamp, the scope, and the saturating-subtracted last-sync timestamp
(snapshot.rs line 105). -/
def snapshotFilenamesByScope (snapshotScopes : List Nat) (referenceTimestamp : Nat) :
    List (Nat × String) :=
  snapshotScopes.map (fun s => (s, snapshotFilename referenceTimestamp s (referenceTimestamp - s)))

/-- The symlink target of slot i: the referenced scope resolved through the
filename map, as in snapshot.rs line 193; none models either unwrap panic. -/
def symlinkTarget (snapshotScopes : List Nat) (referenceTimestamp granularityInterval i : Nat) :
    Option String :=
  (referencedScope snapshotScopes granularityInterval i).bind
    (fun s => (snapshotFilenamesByScope snapshotScopes referenceTimestamp).lookup s)

/-- The full retention index produced by the symlink loop (snapshot.rs
lines 163-206): one (canonical slot timestamp, target filename) entry per
slot index in [0, symlink_count). -/
def symlinkIndex (snapshotScopes : List Nat) (referenceTimestamp granularityInterval : Nat)
    (maxSymlinkCount : Option Nat) : List (Nat × Option String) :=
  (List.range (symlinkCount referenceTimestamp granularityInterval maxSymlinkCount)).map
    (fun i => (canonicalSyncTimestamp referenceTimestamp granularityInterval i,
               symlinkTarget snapshotScopes referenceTimestamp granularityInterval i))

/-! ## Helper lemmas -/

/-- In a list sorted by the non-strict order, find? returns a least
element among those satisfying the predicate (the first match is the
smallest). -/
theorem find?_sorted_min {l : List Nat} {p : Nat → Bool} {a : Nat}
    (hs : l.Sorted (· ≤ ·)) (h : l.find? p = some a) :
    ∀ b ∈ l, p b = true → a ≤ b := by
  induction l with
  | nil => simp at h
  | cons x xs ih =>
    rcases List.sorted_cons.mp hs with ⟨hx, hxs⟩
    intro b hb hpb
    cases hpx : p x with
    | true =>
      rw [List.find?_cons, hpx] at h
      cases h
      rcases List.mem_cons.mp hb with hbx | hbxs
      · exact hbx ▸ Nat.le_refl _
      · exact hx b hbxs
    | false =>
      rw [List.find?_cons, hpx] at h
      rcases List.mem_cons.mp hb with hbx | hbxs
      · rw [hbx] at hpb; rw [hpb] at hpx; cases hpx
      · exact ih hxs h b hbxs hpb

/-- Looking up a key that is in the key list of a map-built association
list yields the value of the function at that key. -/
theorem lookup_map_key {f : Nat → String} :
    ∀ (l : List Nat) (s : Nat), s ∈ l →
      (l.map (fun t => (t, f t))).lookup s = some (f s) := by
  intro l
  induction l with
  | nil => intro s hs; simp at hs
  | cons x xs ih =>
    intro s hs
    simp only [List.map_cons, List.lookup_cons]
    cases hsx : s == x with
    | true =>
      have hxeq : s = x := by simpa using hsx
      rw [hxeq]
    | false =>
      rcases List.mem_cons.mp hs with hx | hxs
      · rw [hx] at hsx; simp at hsx
      · exact ih s hxs

/-- C4: for every reference timestamp, granularity and scope list, slot
index 0 resolves to the unbounded (u64 MAX) scope and its canonical slot
timestamp is forced to 0 (snapshot.rs lines 167-169 and 196-201). -/
theorem slot_zero_forced (snapshotScopes : List Nat)
    (referenceTimestamp granularityInterval : Nat) :
    referencedScope snapshotScopes granularityInterval 0 = some U64MAX ∧
    canonicalSyncTimestamp referenceTimestamp granularityInterval 0 = 0 := by
  constructor <;> simp [referencedScope, canonicalSyncTimestamp]

/-- C1: for every slot index i with 0 < i < symlink_count, when the scope
list is ascending and ends with the u64 MAX sentinel, the retention lookup
of snapshot.rs lines 163-206 succeeds and returns the smallest scope s in
the list with i * granularity <= s (the first match scanning ascending). -/
theorem referencedScope_minimal_covering
    (snapshotScopes : List Nat) (referenceTimestamp granularityInterval i : Nat)
    (maxSymlinkCount : Option Nat)
    (hsorted : snapshotScopes.Sorted (· ≤ ·))
    (hlast : snapshotScopes.getLast? = some U64MAX)
    (hg : 0 < granularityInterval)
    (href : referenceTimestamp < U64LIMIT)
    (hipos : 0 < i)
    (hi : i < symlinkCount referenceTimestamp granularityInterval maxSymlinkCount) :
    ∃ s, referencedScope snapshotScopes granularityInterval i = some s ∧
      i * granularityInterval ≤ s ∧
      ∀ t ∈ snapshotScopes, i * granularityInterval ≤ t → s ≤ t := by
  have hin : i < (referenceTimestamp - epochAnchor) / granularityInterval := by
    refine Nat.lt_of_lt_of_le hi ?_
    unfold symlinkCount
    cases maxSymlinkCount with
    | none => exact Nat.le_refl _
    | some m => exact Nat.min_le_left _ _
  have hmul : i * granularityInterval < U64LIMIT := by
    have h1 : (i + 1) * granularityInterval ≤ referenceTimestamp - epochAnchor :=
      (Nat.le_div_iff_mul_le hg).mp (Nat.succ_le_of_lt hin)
    have h2 : referenceTimestamp - epochAnchor ≤ referenceTimestamp :=
      Nat.sub_le _ _
    have h3 : i * granularityInterval + granularityInterval = (i + 1) * granularityInterval := by
      ring
    omega
  have hmod : (i * granularityInterval) % U64LIMIT = i * granularityInterval :=
    Nat.mod_eq_of_lt hmul
  have hmem : U64MAX ∈ snapshotScopes := List.mem_of_getLast?_eq_some hlast
  have hsome : (snapshotScopes.find? (fun currentScope =>
      decide ((i * granularityInterval) % U64LIMIT ≤ currentScope))).isSome := by
    refine List.find?_isSome.mpr ⟨U64MAX, hmem, ?_⟩
    rw [decide_eq_true_eq, hmod]
    have : U64LIMIT = U64MAX + 1 := by decide
    omega
  rcases Option.isSome_iff_exists.mp hsome with ⟨s, hfind⟩
  refine ⟨s, ?_, ?_, ?_⟩
  · rw [referencedScope, if_neg (Nat.pos_iff_ne_zero.mp hipos)]
    exact hfind
  · have := List.find?_some hfind
    rw [decide_eq_true_eq, hmod] at this
    exact this
  · intro t ht hle
    refine find?_sorted_min hsorted hfind t ht ?_
    rw [decide_eq_true_eq, hmod]
    exact hle

/-- Witness for C1 at the example of the specification: granularity 1800,
scopes [86400, 172800, 345600, u64 MAX], slot 60 resolves to 172800
(reference timestamp one hundred granularity intervals past the anchor). -/
theorem referencedScope_minimal_covering_witness :
    (∃ s, referencedScope [86400, 172800, 345600, U64MAX] 1800 60 = some s ∧
      60 * 1800 ≤ s ∧
      ∀ t ∈ [86400, 172800, 345600, U64MAX], 60 * 1800 ≤ t → s ≤ t) ∧
    referencedScope [86400, 172800, 345600, U64MAX] 1800 60 = some 172800 := by
  constructor
  · exact referencedScope_minimal_covering [86400, 172800, 345600, U64MAX]
      1641175200 1800 60 none (by decide) (by decide) (by decide) (by decide)
      (by decide) (by decide)
  · decide

/-- C2: for valid inputs (positive granularity, reference timestamp at or
past the epoch anchor and below 2^64, scope list ascending and ending in
the u64 MAX sentinel), the symlink loop of snapshot.rs lines 156-206
produces exactly one entry per slot in [0, symlink_count) with
symlink_count = (reference_timestamp - 1640995200) / granularity clamped
to the optional maximum, every entry resolves to a target filename, and
the canonical slot timestamps are pairwise distinct (slot 0 carrying the
forced timestamp 0). -/
theorem symlinkIndex_complete_nodup
    (snapshotScopes : List Nat) (referenceTimestamp granularityInterval : Nat)
    (maxSymlinkCount : Option Nat)
    (hsorted : snapshotScopes.Sorted (· ≤ ·))
    (hlast : snapshotScopes.getLast? = some U64MAX)
    (hg : 0 < granularityInterval)
    (href : referenceTimestamp < U64LIMIT)
    (hanchor : epochAnchor ≤ referenceTimestamp) :
    (symlinkIndex snapshotScopes referenceTimestamp granularityInterval
        maxSymlinkCount).length =
      symlinkCount referenceTimestamp granularityInterval maxSymlinkCount ∧
    (∀ e ∈ symlinkIndex snapshotScopes referenceTimestamp granularityInterval
        maxSymlinkCount, e.2.isSome) ∧
    ((symlinkIndex snapshotScopes referenceTimestamp granularityInterval
        maxSymlinkCount).map Prod.fst).Nodup := by
  have hnle : symlinkCount referenceTimestamp granularityInterval maxSymlinkCount ≤
      (referenceTimestamp - epochAnchor) / granularityInterval := by
    unfold symlinkCount
    cases maxSymlinkCount with
    | none => exact Nat.le_refl _
    | some m => exact Nat.min_le_left _ _
  have hbound : ∀ j, j < symlinkCount referenceTimestamp granularityInterval maxSymlinkCount →
      granularityInterval * j + granularityInterval ≤ referenceTimestamp := by
    intro j hj
    have hin : j < (referenceTimestamp - epochAnchor) / granularityInterval :=
      Nat.lt_of_lt_of_le hj hnle
    have h1 : (j + 1) * granularityInterval ≤ referenceTimestamp - epochAnchor :=
      (Nat.le_div_iff_mul_le hg).mp (Nat.succ_le_of_lt hin)
    have h2 : referenceTimestamp - epochAnchor ≤ referenceTimestamp := Nat.sub_le _ _
    have h3 : (j + 1) * granularityInterval =
        granularityInterval * j + granularityInterval := by ring
    omega
  have hts : ∀ j, j < symlinkCount referenceTimestamp granularityInterval maxSymlinkCount →
      j ≠ 0 → canonicalSyncTimestamp referenceTimestamp granularityInterval j =
        referenceTimestamp - granularityInterval * j := by
    intro j hj hj0
    rw [canonicalSyncTimestamp, if_neg hj0]
    have h1 := hbound j hj
    have hle : granularityInterval * j ≤ U64MAX := by
      have h4 : U64LIMIT = U64MAX + 1 := by decide
      omega
    rw [Nat.min_eq_left hle]
  have hmem : U64MAX ∈ snapshotScopes := List.mem_of_getLast?_eq_some hlast
  refine ⟨?_, ?_, ?_⟩
  · simp [symlinkIndex]
  · intro e he
    rw [symlinkIndex] at he
    rcases List.mem_map.mp he with ⟨i, hi, rfl⟩
    show (symlinkTarget snapshotScopes referenceTimestamp granularityInterval i).isSome
    rw [symlinkTarget]
    by_cases hi0 : i = 0
    · subst hi0
      rw [referencedScope, if_pos rfl, Option.some_bind, snapshotFilenamesByScope,
        lookup_map_key _ _ hmem]
      rfl
    · rw [referencedScope, if_neg hi0]
      have hsome : (snapshotScopes.find? (fun currentScope =>
          decide ((i * granularityInterval) % U64LIMIT ≤ currentScope))).isSome := by
        refine List.find?_isSome.mpr ⟨U64MAX, hmem, ?_⟩
        rw [decide_eq_true_eq]
        have h4 : (i * granularityInterval) % U64LIMIT < U64LIMIT :=
          Nat.mod_lt _ (by decide)
        have h5 : U64LIMIT = U64MAX + 1 := by decide
        omega
      rcases Option.isSome_iff_exists.mp hsome with ⟨s, hfind⟩
      rw [hfind, Option.some_bind, snapshotFilenamesByScope,
        lookup_map_key _ _ (List.mem_of_find?_eq_some hfind)]
      rfl
  · have hmap : (symlinkIndex snapshotScopes referenceTimestamp granularityInterval
        maxSymlinkCount).map Prod.fst =
        (List.range (symlinkCount referenceTimestamp granularityInterval
          maxSymlinkCount)).map
          (fun i => canonicalSyncTimestamp referenceTimestamp granularityInterval i) := by
      rw [symlinkIndex, List.map_map]
      rfl
    rw [hmap]
    refine List.Nodup.map_on ?_
      (List.nodup_range (symlinkCount referenceTimestamp granularityInterval maxSymlinkCount))
    intro x hx y hy heq
    rw [List.mem_range] at hx hy
    have h0 : canonicalSyncTimestamp referenceTimestamp granularityInterval 0 = 0 := by
      simp [canonicalSyncTimestamp]
    by_cases hx0 : x = 0 <;> by_cases hy0 : y = 0
    · rw [hx0, hy0]
    · exfalso
      rw [hx0, h0, hts y hy hy0] at heq
      have h1 := hbound y hy
      omega
    · exfalso
      rw [hy0, h0, hts x hx hx0] at heq
      have h1 := hbound x hx
      omega
    · rw [hts x hx hx0, hts y hy hy0] at heq
      have h1 := hbound x hx
      have h2 := hbound y hy
      have h3 : granularityInterval * x = granularityInterval * y := by omega
      exact Nat.eq_of_mul_eq_mul_left hg h3

/-- Witness for C2 at granularity 1800, scopes
[86400, 172800, 345600, u64 MAX], a reference timestamp one hundred
intervals past the epoch anchor, and the testing clamp set to 10 slots. -/
theorem symlinkIndex_complete_nodup_witness :
    (symlinkIndex [86400, 172800, 345600, U64MAX] 1641175200 1800
        (some 10)).length = symlinkCount 1641175200 1800 (some 10) ∧
    (∀ e ∈ symlinkIndex [86400, 172800, 345600, U64MAX] 1641175200 1800
        (some 10), e.2.isSome) ∧
    ((symlinkIndex [86400, 172800, 345600, U64MAX] 1641175200 1800
        (some 10)).map Prod.fst).Nodup :=
  symlinkIndex_complete_nodup [86400, 172800, 345600, U64MAX] 1641175200 1800
    (some 10) (by decide) (by decide) (by decide) (by decide) (by decide)

/-! ## Scope planner lemmas -/

/-- The planner loop terminates at once when the current scope has reached
the maximum, pushing the sentinel. -/
theorem planScopesAux_stop (fuel currentScope maxScope : Nat)
    (h : maxScope ≤ currentScope) :
    planScopesAux (fuel + 1) currentScope maxScope = some [currentScope, U64MAX] := by
  simp [planScopesAux, h]

/-- With a current scope of 0 and a positive maximum the planner loop
repeats the same state forever: no fuel suffices. -/
theorem planScopesAux_zero_none :
    ∀ (fuel maxScope : Nat), 0 < maxScope → planScopesAux fuel 0 maxScope = none := by
  intro fuel
  induction fuel with
  | zero => intro maxScope h; rfl
  | succ fuel ih =>
    intro maxScope h
    rw [planScopesAux, if_neg (by omega)]
    rw [Nat.zero_mul, Nat.zero_mod, ih maxScope h]
    rfl

/-- A current scope that is below the maximum (which is at most 2^63) or
even, and below 2^64, is strictly below the u64 MAX sentinel. -/
theorem cur_lt_U64MAX {currentScope maxScope : Nat}
    (hlt : currentScope < U64LIMIT) (hmax : maxScope ≤ 2 ^ 63)
    (hinv : currentScope ≤ maxScope ∨ currentScope % 2 = 0) :
    currentScope < U64MAX := by
  have h1 : U64LIMIT = U64MAX + 1 := by decide
  have h2 : U64MAX % 2 = 1 := by decide
  have h3 : 2 ^ 63 < U64MAX := by decide
  omega

/-- Shape of the planner output: starting from a positive current scope
that is at most the maximum or even, with a maximum of at most 2^63 and
enough fuel, the loop returns a strictly ascending list headed by the
current scope and ending in the u64 MAX sentinel. -/
theorem planScopesAux_spec :
    ∀ (fuel currentScope maxScope : Nat), 0 < currentScope →
      currentScope < U64LIMIT → maxScope ≤ 2 ^ 63 →
      (currentScope ≤ maxScope ∨ currentScope % 2 = 0) →
      maxScope ≤ currentScope * 2 ^ fuel →
      ∃ l, planScopesAux (fuel + 1) currentScope maxScope = some l ∧
        l.head? = some currentScope ∧ List.Chain' (· < ·) l ∧
        l.getLast? = some U64MAX := by
  intro fuel
  induction fuel with
  | zero =>
    intro currentScope maxScope hpos hlt hmax hinv hfuel
    have hstop : maxScope ≤ currentScope := by simpa using hfuel
    refine ⟨[currentScope, U64MAX],
      planScopesAux_stop 0 currentScope maxScope hstop, rfl, ?_, rfl⟩
    simp [List.chain'_cons, cur_lt_U64MAX hlt hmax hinv]
  | succ fuel ih =>
    intro currentScope maxScope hpos hlt hmax hinv hfuel
    by_cases hstop : maxScope ≤ currentScope
    · refine ⟨[currentScope, U64MAX],
        planScopesAux_stop (fuel + 1) currentScope maxScope hstop, rfl, ?_, rfl⟩
      simp [List.chain'_cons, cur_lt_U64MAX hlt hmax hinv]
    · have hcur : currentScope < maxScope := Nat.lt_of_not_le hstop
      have hpow : (2:Nat) ^ 64 = 2 ^ 63 * 2 := by norm_num
      have hL : U64LIMIT = 2 ^ 64 := rfl
      have hwrap : currentScope * 2 < U64LIMIT := by omega
      have hmod : (currentScope * 2) % U64LIMIT = currentScope * 2 :=
        Nat.mod_eq_of_lt hwrap
      have hfuel2 : maxScope ≤ currentScope * 2 * 2 ^ fuel := by
        have h4 : currentScope * 2 * 2 ^ fuel = currentScope * 2 ^ (fuel + 1) := by
          ring
        rw [h4]
        exact hfuel
      obtain ⟨l2, hl2, hhead, hchain, hlastl⟩ :=
        ih (currentScope * 2) maxScope (by omega) hwrap hmax (Or.inr (by omega)) hfuel2
      refine ⟨currentScope :: l2, ?_, rfl, ?_, ?_⟩
      · rw [planScopesAux, if_neg hstop, hmod, hl2]
        rfl
      · refine List.chain'_cons'.mpr ⟨?_, hchain⟩
        intro y hy
        rw [hhead] at hy
        simp only [Option.mem_def, Option.some_inj] at hy
        omega
      · cases l2 with
        | nil => simp at hhead
        | cons h2 t2 => rw [List.getLast?_cons_cons]; exact hlastl

/-- C3 counterexample: the input base_interval = 2^63,
max_scope = 2^63 + 1 is valid per the claim (positive base, maximum at
least the base), yet the doubling wraps to 0 modulo 2^64 and the planner
loop never terminates: no scope list is produced at all. -/
theorem planScopes_overflow_counterexample :
    planScopes (2 ^ 63) (2 ^ 63 + 1) = none := by decide

/-- C3 (amended with max_scope bounded by 2^63 so the u64 doubling cannot
wrap): the planner terminates, its output starts at the base interval, is
strictly ascending, ends with the u64 MAX sentinel and contains that
sentinel exactly once; and plan(86400, 604800) is
[86400, 172800, 345600, 691200, u64 MAX]. -/
theorem planScopes_valid_shape (baseInterval maxScope : Nat)
    (hpos : 0 < baseInterval) (hle : baseInterval ≤ maxScope)
    (hmax : maxScope ≤ 2 ^ 63) :
    (∃ l, planScopes baseInterval maxScope = some l ∧
      l.head? = some baseInterval ∧ l.Sorted (· < ·) ∧
      l.getLast? = some U64MAX ∧ l.count U64MAX = 1) ∧
    planScopes 86400 604800 = some [86400, 172800, 345600, 691200, U64MAX] := by
  constructor
  · have hlt : baseInterval < U64LIMIT :=
      Nat.lt_of_le_of_lt (Nat.le_trans hle hmax) (by decide)
    have hfuel : maxScope ≤ baseInterval * 2 ^ 127 := by
      have h1 : (2:Nat) ^ 63 ≤ 2 ^ 127 := by norm_num
      have h2 : 2 ^ 127 ≤ baseInterval * 2 ^ 127 :=
        Nat.le_mul_of_pos_left _ hpos
      omega
    obtain ⟨l, hl, hhead, hchain, hlast⟩ :=
      planScopesAux_spec 127 baseInterval maxScope hpos hlt hmax (Or.inl hle) hfuel
    have hpair : l.Pairwise (· < ·) := List.chain'_iff_pairwise.mp hchain
    have hnodup : l.Nodup := hpair.imp Nat.ne_of_lt
    exact ⟨l, hl, hhead, hpair, hlast,
      List.count_eq_one_of_mem hnodup (List.mem_of_getLast?_eq_some hlast)⟩
  · decide

/-- Witness for C3 at the example of the specification. -/
theorem planScopes_valid_shape_witness :
    (∃ l, planScopes 86400 604800 = some l ∧
      l.head? = some 86400 ∧ l.Sorted (· < ·) ∧
      l.getLast? = some U64MAX ∧ l.count U64MAX = 1) ∧
    planScopes 86400 604800 = some [86400, 172800, 345600, 691200, U64MAX] :=
  planScopes_valid_shape 86400 604800 (by decide) (by decide) (by decide)

/-- C6 counterexample: with max_scope = 500 below base_interval = 1000 the
planner does not fail with a configuration error: it succeeds and returns
[1000, u64 MAX]. -/
theorem planScopes_no_config_error_counterexample :
    planScopes 1000 500 = some [1000, U64MAX] := by decide

/-- C6 (amended): the planner validates nothing. When max_scope is below
base_interval it silently succeeds with [base_interval, u64 MAX]; when
base_interval is 0 and max_scope is positive it never terminates instead
of reporting a configuration error. -/
theorem planScopes_no_validation :
    (∀ baseInterval maxScope : Nat, maxScope < baseInterval →
      planScopes baseInterval maxScope = some [baseInterval, U64MAX]) ∧
    (∀ maxScope : Nat, 0 < maxScope → planScopes 0 maxScope = none) := by
  constructor
  · intro baseInterval maxScope h
    exact planScopesAux_stop 127 baseInterval maxScope (Nat.le_of_lt h)
  · intro maxScope h
    exact planScopesAux_zero_none 128 maxScope h

/-- C9: the slot count of snapshot.rs line 157 is defined exactly when the
reference timestamp is at least the hard-coded anchor 1640995200 and the
granularity is positive; otherwise the unchecked subtraction underflows or
the division is by zero, and in the defined case the value is
(reference_timestamp - 1640995200) / granularity_interval. -/
theorem symlinkCountChecked_total_iff (referenceTimestamp granularityInterval : Nat) :
    symlinkCountChecked referenceTimestamp granularityInterval =
      (if epochAnchor ≤ referenceTimestamp ∧ 0 < granularityInterval then
        some ((referenceTimestamp - epochAnchor) / granularityInterval)
      else none) ∧
    ((symlinkCountChecked referenceTimestamp granularityInterval).isSome ↔
      (epochAnchor ≤ referenceTimestamp ∧ 0 < granularityInterval)) := by
  have heq : symlinkCountChecked referenceTimestamp granularityInterval =
      (if epochAnchor ≤ referenceTimestamp ∧ 0 < granularityInterval then
        some ((referenceTimestamp - epochAnchor) / granularityInterval)
      else none) := by
    simp only [symlinkCountChecked, checkedSub, checkedDiv]
    by_cases h1 : epochAnchor ≤ referenceTimestamp
    · by_cases h2 : granularityInterval = 0
      · simp [h1, h2]
      · simp [h1, h2, Nat.pos_of_ne_zero h2]
    · have h3 : ¬(epochAnchor ≤ referenceTimestamp ∧ 0 < granularityInterval) := by
        intro hc
        exact h1 hc.1
      simp [h1, h3]
  refine ⟨heq, ?_⟩
  rw [heq]
  by_cases h : epochAnchor ≤ referenceTimestamp ∧ 0 < granularityInterval
  · simp [h]
  · simp [h]

/-! ## Upload client (src/client.rs)

The snapshot structure is the SerializedResponse of the crate root, with
the fields read by snapshot.rs line 121. The HTTP request built by
post_snapshot (client.rs lines 23-43) is embedded as a record of the URL,
the single authentication header, and the body. The body of the source is
produced by send_json applied to the whole snapshot structure, which
serializes the structure as a JSON document; a body that is the raw blob
bytes is a distinct constructor, so the two can be told apart. -/

structure SerializedResponse where
  data : List Nat
  message_count : Nat
  announcement_count : Nat
  update_count : Nat
  update_count_full : Nat
  update_count_incremental : Nat
deriving DecidableEq

inductive RequestBody where
  | jsonEncoded (snapshot : SerializedResponse)
  | rawBytes (bytes : List Nat)
deriving DecidableEq

structure HttpRequest where
  url : String
  apiKeyHeader : String × String
  body : RequestBody
deriving DecidableEq

/-- The POST request issued by post_snapshot (client.rs lines 29-33). -/
def postSnapshotRequest (baseUrl : String) (snapshot : SerializedResponse)
    (timestamp : Nat) (token : String) : HttpRequest :=
  { url := baseUrl ++ ("/v1/rgs/snapshot/" ++ Nat.repr timestamp)
  , apiKeyHeader := ("X-API-KEY", token)
  , body := RequestBody.jsonEncoded snapshot }

/-- The three outcomes of the ureq call as matched by client.rs lines
35-42: success, a non-2xx status response carrying a status code and an
optional body text, or a transport error. -/
inductive UreqResponse where
  | success
  | statusError (code : Nat) (bodyText : Option String)
  | transportError (message : String)

/-- The result mapping of post_snapshot (client.rs lines 35-42): success
maps to Ok, a status error to an error string of the code and the body
text (empty when absent), a transport error to that error. -/
def postSnapshotResult : UreqResponse → Except String Unit
  | UreqResponse.success => Except.ok ()
  | UreqResponse.statusError code bodyText =>
      Except.error (Nat.repr code ++ (": " ++ bodyText.getD ""))
  | UreqResponse.transportError message => Except.error message

/-- C8 counterexample: the request body built by post_snapshot is the JSON
encoding of the whole snapshot structure, not the raw blob bytes: at a
concrete snapshot whose blob is [1, 2, 3] the body differs from the raw
bytes [1, 2, 3]. -/
theorem postSnapshot_body_counterexample :
    (postSnapshotRequest "https://example.com"
        ⟨[1, 2, 3], 1, 1, 1, 1, 0⟩ 7 "key").body ≠
      RequestBody.rawBytes [1, 2, 3] := by
  decide

/-- C8 (amended): post_snapshot issues a POST to
base_url/v1/rgs/snapshot/timestamp with header X-API-KEY set to the
key, and the JSON serialization of the whole snapshot structure as the
body (send_json), not the raw blob bytes; it returns Ok on success and on
a non-2xx response an error surfacing the status code and the response
body text. -/
theorem postSnapshot_request_shape (baseUrl : String) (snapshot : SerializedResponse)
    (timestamp : Nat) (token : String) :
    (postSnapshotRequest baseUrl snapshot timestamp token).url =
      baseUrl ++ ("/v1/rgs/snapshot/" ++ Nat.repr timestamp) ∧
    (postSnapshotRequest baseUrl snapshot timestamp token).apiKeyHeader =
      ("X-API-KEY", token) ∧
    (postSnapshotRequest baseUrl snapshot timestamp token).body =
      RequestBody.jsonEncoded snapshot ∧
    postSnapshotResult UreqResponse.success = Except.ok () ∧
    (∀ (code : Nat) (bodyText : Option String),
      postSnapshotResult (UreqResponse.statusError code bodyText) =
        Except.error (Nat.repr code ++ (": " ++ bodyText.getD ""))) :=
  ⟨rfl, rfl, rfl, rfl, fun _ _ => rfl⟩

/-- The upload performed inside generate_snapshots (snapshot.rs lines
127-139): post_snapshot is called with the literal timestamp 0; the
reference timestamp of the cycle is in scope but not passed. -/
def uploadSnapshotCall (baseUrl : String) (referenceTimestamp : Nat)
    (snapshot : SerializedResponse) (apiKey : String) : HttpRequest :=
  postSnapshotRequest baseUrl snapshot 0 apiKey

/-- C10: every upload performed by a cycle posts to
base_url/v1/rgs/snapshot/0, whatever the reference timestamp of the
cycle is. -/
theorem upload_timestamp_always_zero (baseUrl : String)
    (referenceTimestamp otherReferenceTimestamp : Nat)
    (snapshot : SerializedResponse) (apiKey : String) :
    (uploadSnapshotCall baseUrl referenceTimestamp snapshot apiKey).url =
      baseUrl ++ "/v1/rgs/snapshot/0" ∧
    uploadSnapshotCall baseUrl referenceTimestamp snapshot apiKey =
      uploadSnapshotCall baseUrl otherReferenceTimestamp snapshot apiKey := by
  refine ⟨?_, rfl⟩
  show baseUrl ++ ("/v1/rgs/snapshot/" ++ Nat.repr 0) = baseUrl ++ "/v1/rgs/snapshot/0"
  exact congrArg (fun s => baseUrl ++ s) (by decide)

/-! ## Generation cycle and scheduler loop (snapshot.rs lines 44-63 and
65-220)

The filesystem effects of one generate_snapshots call are abstracted to
the four directories the function touches, each holding the generation
number of the data currently in it (none when absent). The fallible
operations of a cycle are grouped into five phases in source order, each
with a success flag: purging and recreating the pending directories
(lines 94-101), the per-scope blob writes (line 122), the upload of the
unbounded-scope blob (lines 127-139), the dummy blob, symlink and
freshness-marker writes (lines 143-210), and the finalize swap (lines
212-219). Every filesystem failure in the source goes through expect or
unwrap, which panics; the panic unwinds out of the loop of
snapshot_gossip, so a panicked cycle terminates the loop, which the
embedding records by stopping with the crash flag set. -/

structure FsState where
  pendingSnapshots : Option Nat
  pendingSymlinks : Option Nat
  finalizedSnapshots : Option Nat
  finalizedSymlinks : Option Nat
deriving DecidableEq

structure CycleEnv where
  prepOk : Bool
  snapshotWritesOk : Bool
  uploadOk : Bool
  symlinkWritesOk : Bool
  finalizeOk : Bool
deriving DecidableEq

inductive CycleOutcome where
  | completed
  | panicked
deriving DecidableEq

/-- One generate_snapshots call over the abstract filesystem. The upload
result is bound and only inspected for logging (snapshot.rs lines
130-137), so it steers nothing. A finalize failure can interrupt the
remove-then-rename sequence, so it is modelled as leaving the finalized
pair removed. -/
def generateSnapshotsFs (generation : Nat) (env : CycleEnv) (fs : FsState) :
    CycleOutcome × FsState :=
  if env.prepOk then
    let fs1 : FsState := { fs with pendingSnapshots := none, pendingSymlinks := none }
    if env.snapshotWritesOk then
      let fs2 : FsState := { fs1 with pendingSnapshots := some generation }
      let _uploaded : Bool := env.uploadOk
      if env.symlinkWritesOk then
        let fs3 : FsState := { fs2 with pendingSymlinks := some generation }
        if env.finalizeOk then
          (CycleOutcome.completed,
            { pendingSnapshots := none, pendingSymlinks := none,
              finalizedSnapshots := some generation,
              finalizedSymlinks := some generation })
        else
          (CycleOutcome.panicked,
            { fs3 with finalizedSnapshots := none, finalizedSymlinks := none })
      else (CycleOutcome.panicked, fs2)
    else (CycleOutcome.panicked, fs1)
  else (CycleOutcome.panicked, fs)

/-- The never-ending loop of snapshot_gossip (lines 44-63), run on a
finite schedule of cycles: returns whether the process crashed, the final
filesystem state, and how many cycles were attempted. A panic unwinds, so
the loop stops at the first panicked cycle. -/
def snapshotLoop (generation : Nat) (cycles : List CycleEnv) (fs : FsState) :
    Bool × FsState × Nat :=
  match cycles with
  | [] => (false, fs, 0)
  | env :: rest =>
    match generateSnapshotsFs generation env fs with
    | (CycleOutcome.panicked, fs2) => (true, fs2, 1)
    | (CycleOutcome.completed, fs2) =>
      let r := snapshotLoop (generation + 1) rest fs2
      (r.1, r.2.1, r.2.2 + 1)

/-- C5 counterexample: a cycle whose pending-directory preparation fails
panics; with a two-cycle schedule whose first cycle fails that way, the
process crashes (the claim says it must not), only one cycle is attempted
instead of two (the claim says the next cycle runs normally), though the
finalized directories are indeed untouched. -/
theorem cycle_failure_crashes_counterexample :
    (snapshotLoop 1 [⟨false, true, true, true, true⟩, ⟨true, true, true, true, true⟩]
        ⟨none, none, some 0, some 0⟩).1 = true ∧
    (snapshotLoop 1 [⟨false, true, true, true, true⟩, ⟨true, true, true, true, true⟩]
        ⟨none, none, some 0, some 0⟩).2.2 = 1 ∧
    (snapshotLoop 1 [⟨false, true, true, true, true⟩, ⟨true, true, true, true, true⟩]
        ⟨none, none, some 0, some 0⟩).2.1.finalizedSnapshots = some 0 ∧
    (snapshotLoop 1 [⟨false, true, true, true, true⟩, ⟨true, true, true, true, true⟩]
        ⟨none, none, some 0, some 0⟩).2.1.finalizedSymlinks = some 0 := by
  decide

/-- C5 (amended): a write failure while preparing the pending directories
or persisting blobs or symlinks panics the cycle before the finalize
swap, so the finalized directories are untouched; but the panic unwinds
out of the scheduling loop: the process crashes and no further cycle is
attempted, instead of the loop skipping to the next tick. -/
theorem cycle_write_failure_panics (generation : Nat) (env : CycleEnv)
    (fs : FsState) (rest : List CycleEnv)
    (hfail : env.prepOk = false ∨ env.snapshotWritesOk = false ∨
      env.symlinkWritesOk = false) :
    (generateSnapshotsFs generation env fs).1 = CycleOutcome.panicked ∧
    (generateSnapshotsFs generation env fs).2.finalizedSnapshots =
      fs.finalizedSnapshots ∧
    (generateSnapshotsFs generation env fs).2.finalizedSymlinks =
      fs.finalizedSymlinks ∧
    snapshotLoop generation (env :: rest) fs =
      (true, (generateSnapshotsFs generation env fs).2, 1) := by
  rcases env with ⟨p, s, u, y, f⟩
  rcases hfail with h | h | h <;> subst h
  · simp [generateSnapshotsFs, snapshotLoop]
  · cases p <;> simp [generateSnapshotsFs, snapshotLoop]
  · cases p <;> cases s <;> simp [generateSnapshotsFs, snapshotLoop]

/-- Witness for C5 at a concrete failing cycle: the blob write fails. -/
theorem cycle_write_failure_panics_witness :
    (generateSnapshotsFs 1 ⟨true, false, true, true, true⟩
        ⟨none, none, some 0, some 0⟩).1 = CycleOutcome.panicked ∧
    (generateSnapshotsFs 1 ⟨true, false, true, true, true⟩
        ⟨none, none, some 0, some 0⟩).2.finalizedSnapshots =
      (⟨none, none, some 0, some 0⟩ : FsState).finalizedSnapshots ∧
    (generateSnapshotsFs 1 ⟨true, false, true, true, true⟩
        ⟨none, none, some 0, some 0⟩).2.finalizedSymlinks =
      (⟨none, none, some 0, some 0⟩ : FsState).finalizedSymlinks ∧
    snapshotLoop 1 [⟨true, false, true, true, true⟩] ⟨none, none, some 0, some 0⟩ =
      (true, (generateSnapshotsFs 1 ⟨true, false, true, true, true⟩
        ⟨none, none, some 0, some 0⟩).2, 1) :=
  cycle_write_failure_panics 1 ⟨true, false, true, true, true⟩
    ⟨none, none, some 0, some 0⟩ [] (Or.inr (Or.inl rfl))

/-- C7: the outcome of the upload never affects the cycle: two runs
differing only in the upload result produce identical outcomes and
filesystem states, and with every write succeeding an always-failing
upload still lets the cycle complete and finalize both directories. -/
theorem upload_failure_harmless :
    (∀ (generation : Nat) (p s y f u1 u2 : Bool) (fs : FsState),
      generateSnapshotsFs generation ⟨p, s, u1, y, f⟩ fs =
        generateSnapshotsFs generation ⟨p, s, u2, y, f⟩ fs) ∧
    (∀ (generation : Nat) (fs : FsState),
      generateSnapshotsFs generation ⟨true, true, false, true, true⟩ fs =
        (CycleOutcome.completed,
          ⟨none, none, some generation, some generation⟩)) := by
  constructor
  · intro generation p s y f u1 u2 fs
    cases p <;> cases s <;> cases y <;> cases f <;> rfl
  · intro generation fs
    rfl

end RGS
